import Mathlib

/-!
Shallow embedding of the event-sourced Linked-Data Resource core of
`wepala/vine-pod`: the RDF format validators and converter
(`internal/domain/service/rdf_validation_service_impl.go`), the domain
events (`internal/domain/event/resource_events.go`) and the `BasicResource`
aggregate (`internal/domain/entity/resource.go`).

External collaborators (Go's `encoding/json`, the `json-gold`, `rdf2go` and
`knakk/rdf` libraries, and the pericarp `domain.Entity` base) are not part
of the repository; where their behaviour decides a property they are
modelled from the specification, each such definition carrying a doc
comment that starts with `Modelled from the spec:`.  Wall-clock time
(`time.Now()`) enters every operation as an explicit `now : Int` parameter
holding Unix seconds, the granularity consumed by `GetETag`.
-/

namespace VinePod

/-! ## JSON values -/

/-- The left brace character, kept out of string literals. -/
def lbrace : Char := Char.ofNat 123

/-- The right brace character, kept out of string literals. -/
def rbrace : Char := Char.ofNat 125

/-- A JSON value as produced by Go's `encoding/json.Unmarshal` into
`interface{}`: objects become key/value maps, numbers are restricted to
integers (the only numerals the claims exercise). -/
inductive Json where
  | null
  | bool (b : Bool)
  | num (n : Int)
  | str (s : String)
  | arr (xs : List Json)
  | obj (kvs : List (String × Json))

/-- First binding of `k` in an association list (Go map lookup; the lists we
build hold at most one binding per key). -/
def lookupKey : List (String × Json) → String → Option Json
  | [], _ => none
  | (k', v) :: rest, k => if k' = k then some v else lookupKey rest k

/-- Go map insert: replace the binding of `k` if present, otherwise append. -/
def goMapInsert (m : List (String × Json)) (k : String) (v : Json) :
    List (String × Json) :=
  if m.any (fun kv => kv.1 = k) then
    m.map (fun kv => if kv.1 = k then (k, v) else kv)
  else m ++ [(k, v)]

/-! ## A JSON parser

Modelled from the spec: Go's `encoding/json.Unmarshal` is external to the
repository.  The model parses the JSON subset the claims exercise (objects,
arrays, strings with the basic escapes, integer numerals, `true`/`false`/
`null`); duplicate object keys follow Go's last-binding-wins rule.  Fuel
makes the recursion structural; `s.length + 2` fuel always suffices because
every recursive step consumes at least one character. -/

/-- Drop leading JSON whitespace. -/
def skipWs : List Char → List Char
  | [] => []
  | c :: cs =>
    if c = ' ' ∨ c = '\n' ∨ c = '\t' ∨ c = '\r' then skipWs cs else c :: cs

/-- Parse the body of a JSON string after the opening quote; returns the
decoded string and the input after the closing quote. -/
def parseStringBody : List Char → Option (String × List Char)
  | [] => none
  | '"' :: rest => some ("", rest)
  | '\\' :: c :: rest =>
    match
      (match c with
       | '"' => some '"'
       | '\\' => some '\\'
       | '/' => some '/'
       | 'n' => some '\n'
       | 't' => some '\t'
       | 'r' => some '\r'
       | _ => none) with
    | none => none
    | some esc =>
      match parseStringBody rest with
      | none => none
      | some (s, r) => some (⟨esc :: s.data⟩, r)
  | c :: rest =>
    if c = '\\' then none
    else
      match parseStringBody rest with
      | none => none
      | some (s, r) => some (⟨c :: s.data⟩, r)

/-- Split a leading run of decimal digits from the input. -/
def takeDigits : List Char → (List Char × List Char)
  | [] => ([], [])
  | c :: cs =>
    if c.isDigit then
      let (d, r) := takeDigits cs
      (c :: d, r)
    else ([], c :: cs)

/-- Decimal value of a digit run. -/
def digitsToNat (ds : List Char) : Nat :=
  ds.foldl (fun n c => n * 10 + (c.toNat - 48)) 0

mutual

/-- Fuel-indexed JSON value parser. -/
def parseJsonF : Nat → List Char → Option (Json × List Char)
  | 0, _ => none
  | fuel + 1, cs =>
    match skipWs cs with
    | [] => none
    | c :: rest =>
      if c = lbrace then
        match parseObjItemsF fuel (skipWs rest) with
        | none => none
        | some (kvs, r) => some (.obj kvs, r)
      else if c = '[' then
        match skipWs rest with
        | ']' :: r => some (.arr [], r)
        | r =>
          match parseArrItemsF fuel r with
          | none => none
          | some (xs, r') => some (.arr xs, r')
      else if c = '"' then
        match parseStringBody rest with
        | none => none
        | some (s, r) => some (.str s, r)
      else
        match c :: rest with
        | 'n' :: 'u' :: 'l' :: 'l' :: r => some (.null, r)
        | 't' :: 'r' :: 'u' :: 'e' :: r => some (.bool true, r)
        | 'f' :: 'a' :: 'l' :: 's' :: 'e' :: r => some (.bool false, r)
        | '-' :: r =>
          match takeDigits r with
          | ([], _) => none
          | (ds, r') => some (.num (-(Int.ofNat (digitsToNat ds))), r')
        | r =>
          match takeDigits r with
          | ([], _) => none
          | (ds, r') => some (.num (Int.ofNat (digitsToNat ds)), r')

/-- Fuel-indexed parser for object entries, expecting either the closing
brace or a `"key": value` entry; later duplicate keys win, as in Go. -/
def parseObjItemsF : Nat → List Char → Option (List (String × Json) × List Char)
  | 0, _ => none
  | fuel + 1, cs =>
    match cs with
    | [] => none
    | c :: rest =>
      if c = rbrace then some ([], rest)
      else if c = '"' then
        match parseStringBody rest with
        | none => none
        | some (key, r1) =>
          match skipWs r1 with
          | ':' :: r2 =>
            match parseJsonF fuel r2 with
            | none => none
            | some (v, r3) =>
              match skipWs r3 with
              | ',' :: r4 =>
                match parseObjItemsF fuel (skipWs r4) with
                | none => none
                | some ([], _) => none
                | some (kvs, r5) =>
                  some ((if kvs.any (fun kv => kv.1 = key) then kvs
                         else (key, v) :: kvs), r5)
              | d :: r4 =>
                if d = rbrace then some ([(key, v)], r4) else none
              | [] => none
          | _ => none
      else none

/-- Fuel-indexed parser for array elements. -/
def parseArrItemsF : Nat → List Char → Option (List Json × List Char)
  | 0, _ => none
  | fuel + 1, cs =>
    match parseJsonF fuel cs with
    | none => none
    | some (v, r) =>
      match skipWs r with
      | ',' :: r2 =>
        match parseArrItemsF fuel (skipWs r2) with
        | none => none
        | some (xs, r3) => some (v :: xs, r3)
      | ']' :: r2 => some ([v], r2)
      | _ => none

end

/-- Modelled from the spec: Go's `encoding/json.Unmarshal` for the JSON
subset described above; trailing input other than whitespace is rejected,
and the empty document fails to parse. -/
def jsonUnmarshal (s : String) : Option Json :=
  match parseJsonF (s.length + 2) s.data with
  | none => none
  | some (j, rest) => if skipWs rest = [] then some j else none

/-! ## RDF validation errors and formats -/

/-- Content-type strings recognised by the service
(`internal/domain/service/rdf_validation_service.go`). -/
def formatJSONLD : String := "application/ld+json"

/-- Turtle content type. -/
def formatTurtle : String := "text/turtle"

/-- RDF/XML content type. -/
def formatRDFXML : String := "application/rdf+xml"

/-- N3 content type. -/
def formatN3 : String := "text/n3"

/-- N-Triples content type. -/
def formatNTriples : String := "application/n-triples"

/-- A `service.ValidationError` as built by `NewValidationError` (line and
column stay zero on every path the service takes, so they are omitted). -/
structure VError where
  format : String
  message : String
deriving DecidableEq, Repr

/-- `ValidationError.Error()` for the zero line/column case. -/
def VError.toMessage (e : VError) : String :=
  e.format ++ " validation error: " ++ e.message

/-- Top-level `@id` extraction from the unmarshalled JSON-LD document:
present exactly when the document is an object whose `@id` key holds a
string (`ValidateJSONLD`, the type-assertion cascade). -/
def topLevelId (j : Json) : Option String :=
  match j with
  | .obj kvs =>
    match lookupKey kvs "@id" with
    | some (.str s) => some s
    | _ => none
  | _ => none

/-- Modelled from the spec: `json-gold`'s `Expand` (and the subsequent
`ToRDF` call, which succeeds on every successfully expanded document) is
external.  The spec demands only structural compliance, so the model checks
the one keyword constraint relevant here: a top-level `@id` key, when
present, must hold a string. -/
def jsonLdExpandOk (j : Json) : Bool :=
  match j with
  | .obj kvs =>
    match lookupKey kvs "@id" with
    | some (.str _) => true
    | some _ => false
    | none => true
  | _ => true

/-- `StandardRDFValidationService.ValidateJSONLD`: parse as JSON, expand as
JSON-LD, then return the top-level `@id` string if one exists. -/
def validateJSONLD (data : String) : Except VError String :=
  match jsonUnmarshal data with
  | none => .error ⟨formatJSONLD, "Invalid JSON syntax"⟩
  | some j =>
    if jsonLdExpandOk j then
      match topLevelId j with
      | some s => .ok s
      | none => .error ⟨formatJSONLD, "No @id field found in JSON-LD"⟩
    else .error ⟨formatJSONLD, "JSON-LD expansion failed"⟩

/-! ## Turtle parsing -/

/-- A parsed triple as surfaced by `rdf2go`: the raw values of subject,
predicate and object (raw values carry no angle brackets or quotes). -/
structure GraphTriple where
  subject : String
  predicate : String
  object : String
deriving DecidableEq, Repr

/-- Split a character list on a separator (the pieces keep no separator;
`n` pieces for `n - 1` separators, as Go's `strings.Split`). -/
def splitOnChar (sep : Char) : List Char → List (List Char)
  | [] => [[]]
  | c :: cs =>
    if c = sep then [] :: splitOnChar sep cs
    else
      match splitOnChar sep cs with
      | w :: ws => (c :: w) :: ws
      | [] => [[c]]

/-- Parse an angle-bracketed IRI token; only absolute IRIs (containing a
scheme separator `:`) are admitted. -/
def parseIriTok (w : List Char) : Option String :=
  match w with
  | '<' :: rest =>
    if rest.getLast? = some '>' then
      if rest.dropLast.contains ':' ∧ ¬ rest.dropLast.contains ' ' ∧
          rest.dropLast ≠ [] then
        some ⟨rest.dropLast⟩
      else none
    else none
  | _ => none

/-- Parse an object token: an IRI or a quoted literal; the literal's raw
value strips the quotes, as `rdf2go`'s `RawValue` does. -/
def parseObjTok (w : List Char) : Option String :=
  match parseIriTok w with
  | some i => some i
  | none =>
    match w with
    | '"' :: rest =>
      if rest.getLast? = some '"' then some ⟨rest.dropLast⟩ else none
    | _ => none

/-- Parse one Turtle line: `none` is a syntax error, `some none` a blank
line, `some (some t)` a triple. -/
def parseTurtleLine (line : List Char) : Option (Option GraphTriple) :=
  match (splitOnChar ' ' line).filter (fun w => w ≠ []) with
  | [] => some none
  | [s, p, o, d] =>
    if d = ['.'] then
      match parseIriTok s, parseIriTok p, parseObjTok o with
      | some s', some p', some o' => some (some ⟨s', p', o'⟩)
      | _, _, _ => none
    else none
  | _ => none

/-- Parse a list of Turtle lines into triples, failing on the first bad
line. -/
def parseTurtleLines : List (List Char) → Option (List GraphTriple)
  | [] => some []
  | l :: rest =>
    match parseTurtleLine l, parseTurtleLines rest with
    | some none, some ts => some ts
    | some (some t), some ts => some (t :: ts)
    | _, _ => none

/-- Modelled from the spec: `rdf2go`'s Turtle parser is external; the model
is a standards-compliant parser for the one-triple-per-line subset
`<iri> <iri> (<iri> | "literal") .` with absolute IRIs.  The empty document
parses to the empty graph. -/
def turtleParse (data : String) : Except String (List GraphTriple) :=
  match parseTurtleLines (splitOnChar '\n' data.data) with
  | none => .error "turtle syntax error"
  | some ts => .ok ts

/-- `StandardRDFValidationService.ValidateTurtle`: parse, then return the
subject of the first triple with a non-empty subject. -/
def validateTurtle (data : String) : Except VError String :=
  match turtleParse data with
  | .error _ => .error ⟨formatTurtle, "Turtle parsing failed"⟩
  | .ok ts =>
    match ts.find? (fun t => t.subject ≠ "") with
    | some t => .ok t.subject
    | none => .error ⟨formatTurtle, "No subject URI found in Turtle data"⟩

/-- `StandardRDFValidationService.ValidateN3`: same parser, N3 error
texts. -/
def validateN3 (data : String) : Except VError String :=
  match turtleParse data with
  | .error _ => .error ⟨formatN3, "N3 parsing failed"⟩
  | .ok ts =>
    match ts.find? (fun t => t.subject ≠ "") with
    | some t => .ok t.subject
    | none => .error ⟨formatN3, "No subject URI found in N3 data"⟩

/-! ## knakk/rdf triple decoding and the RDF/XML / N-Triples validators -/

/-- Outcome of the first `Decode()` call on a `knakk/rdf` `TripleDecoder`:
a non-EOF error, end of input (which returns `io.EOF` together with the
zero-valued `Triple`, whose `Subj` interface is nil), or a first triple
with its subject and whether that subject is an IRI. -/
inductive DecodeOutcome where
  | parseError (msg : String)
  | eofZeroTriple
  | firstTriple (subjIsIRI : Bool) (subj : String)
deriving DecidableEq, Repr

/-- A Go computation that either returns normally or faults with a runtime
panic. -/
inductive RunResult (α : Type) where
  | crashed (msg : String)
  | returned (a : α)
deriving DecidableEq, Repr

/-- Modelled from the spec: the first-`Decode()` outcome of the `knakk/rdf`
RDF/XML decoder.  Its decoder reports end-of-input without a triple on the
empty document; no claim evaluates it on any other input, which the model
leaves as a parse error. -/
def decodeFirstRDFXML (data : String) : DecodeOutcome :=
  if data = "" then .eofZeroTriple else .parseError "rdfxml input not modelled"

/-- Modelled from the spec: the first-`Decode()` outcome of the `knakk/rdf`
N-Triples decoder; empty input reports end-of-input without a triple. -/
def decodeFirstNTriples (data : String) : DecodeOutcome :=
  if data = "" then .eofZeroTriple else .parseError "ntriples input not modelled"

/-- `StandardRDFValidationService.ValidateRDFXML` over the first decode
outcome.  When `Decode` reports `io.EOF` the Go code falls through to
`triple.Subj.Type()` on the zero `Triple`, a method call on a nil
interface: a runtime panic, modelled as `crashed`. -/
def validateRDFXMLRun (d : DecodeOutcome) : RunResult (Except VError String) :=
  match d with
  | .parseError _ => .returned (.error ⟨formatRDFXML, "RDF/XML parsing failed"⟩)
  | .eofZeroTriple => .crashed "nil interface dereference in triple.Subj.Type()"
  | .firstTriple isIRI s =>
    .returned (if isIRI then .ok s
               else .error ⟨formatRDFXML, "No rdf:about URI found in RDF/XML data"⟩)

/-- `StandardRDFValidationService.ValidateNTriples` over the first decode
outcome; the same fall-through dereferences the zero `Triple` on
`io.EOF`. -/
def validateNTriplesRun (d : DecodeOutcome) : RunResult (Except VError String) :=
  match d with
  | .parseError _ => .returned (.error ⟨formatNTriples, "N-Triples parsing failed"⟩)
  | .eofZeroTriple => .crashed "nil interface dereference in triple.Subj.Type()"
  | .firstTriple isIRI s =>
    .returned (if isIRI then .ok s
               else .error ⟨formatNTriples, "No subject URI found in N-Triples data"⟩)

/-! ## Format conversion -/

/-- The service's internal `rdfTriple` record. -/
structure RdfTriple where
  subject : String
  predicate : String
  object : String
  isLiteral : Bool
deriving DecidableEq, Repr

/-- Errors of `ConvertFormat`: the two unsupported-format rejections (whose
Go messages are `"unsupported source format: %s"` and
`"unsupported target format: %s"`) and the wrapped parse failure
(`"failed to parse source data: %w"`). -/
inductive ConvertError where
  | unsupportedSource (format : String)
  | unsupportedTarget (format : String)
  | parseFailed (cause : String)
deriving DecidableEq, Repr

/-- `StandardRDFValidationService.parseJSONLDToTriples`: unmarshal, expand,
then synthesize the single placeholder triple from the top-level `@id`
(no triple at all when the `@id` is absent or not a string). -/
def parseJSONLDToTriples (data : String) : Except String (List RdfTriple) :=
  match jsonUnmarshal data with
  | none => .error "invalid JSON"
  | some j =>
    if jsonLdExpandOk j then
      .ok (match topLevelId j with
           | some idStr =>
             [⟨idStr, "http://www.w3.org/1999/02/22-rdf-syntax-ns#type",
               "http://www.w3.org/2000/01/rdf-schema#Resource", false⟩]
           | none => [])
    else .error "JSON-LD expansion failed"

/-- `strings.HasPrefix(s, "\"")`: whether the first character is a double
quote. -/
def startsWithQuote (s : String) : Bool :=
  match s.data with
  | c :: _ => c = '"'
  | [] => false

/-- `StandardRDFValidationService.parseTurtleToTriples`: raw values from
the parsed graph; a triple is marked literal when its object's raw value
starts with a double quote (which a stripped literal raw value does not). -/
def parseTurtleToTriples (data : String) : Except String (List RdfTriple) :=
  match turtleParse data with
  | .error e => .error e
  | .ok ts =>
    .ok (ts.map (fun t =>
      ⟨t.subject, t.predicate, t.object, startsWithQuote t.object⟩))

/-- `StandardRDFValidationService.parseN3ToTriples` delegates to the Turtle
parser. -/
def parseN3ToTriples (data : String) : Except String (List RdfTriple) :=
  parseTurtleToTriples data

/-- Modelled from the spec: the full-decode loop of
`parseRDFXMLToTriples` over the external `knakk/rdf` decoder.  The empty
document decodes to zero triples with no error (the loop breaks on
`io.EOF` before touching any triple); no claim evaluates other inputs. -/
def parseRDFXMLToTriples (data : String) : Except String (List RdfTriple) :=
  if data = "" then .ok [] else .error "rdfxml input not modelled"

/-- Modelled from the spec: the full-decode loop of
`parseNTriplesToTriples`; the empty document decodes to zero triples. -/
def parseNTriplesToTriples (data : String) : Except String (List RdfTriple) :=
  if data = "" then .ok [] else .error "ntriples input not modelled"

/-- `StandardRDFValidationService.serializeTriplesToJSONLD`, up to JSON
marshalling: the Go map that is marshalled.  An empty triple list gives the
empty object; otherwise `"@id"` is bound to the first triple's subject and
each triple contributes a binding under its predicate. -/
def serializeTriplesToJSONLD (triples : List RdfTriple) : List (String × Json) :=
  match triples with
  | [] => []
  | t0 :: _ =>
    triples.foldl
      (fun m t =>
        goMapInsert m t.predicate
          (if t.isLiteral then .str t.object
           else .obj [("@id", .str t.object)]))
      (goMapInsert [] "@id" (.str t0.subject))

/-- Modelled from the spec: Go's `json.MarshalIndent` of the built map
(indentation and key order abstracted); the claims consume the marshalled
object through `serializeTriplesToJSONLD`, never through this text. -/
def jsonMarshal : Json → String
  | .null => "null"
  | .bool true => "true"
  | .bool false => "false"
  | .num n => toString n
  | .str s => "\"" ++ s ++ "\""
  | .arr xs =>
    "[" ++ String.intercalate "," (xs.attach.map (fun x => jsonMarshal x.1)) ++ "]"
  | .obj kvs =>
    "\x7b" ++
      String.intercalate ","
        (kvs.attach.map (fun kv => "\"" ++ kv.1.1 ++ "\": " ++ jsonMarshal kv.1.2)) ++
      "\x7d"
decreasing_by
  · have h := List.sizeOf_lt_of_mem x.2
    simp only [Json.arr.sizeOf_spec]
    omega
  · have h := List.sizeOf_lt_of_mem kv.2
    have h2 : sizeOf (↑kv : String × Json).2 < sizeOf (↑kv : String × Json) := by
      rcases (↑kv : String × Json) with ⟨a, b⟩
      simp only [Prod.mk.sizeOf_spec]
      omega
    simp only [Json.obj.sizeOf_spec]
    omega

/-- `StandardRDFValidationService.serializeTriplesToTurtle`: quoted
literals, angle-bracketed references. -/
def serializeTriplesToTurtle (triples : List RdfTriple) : String :=
  triples.foldl
    (fun acc t =>
      acc ++ "<" ++ t.subject ++ "> <" ++ t.predicate ++ "> " ++
        (if t.isLiteral then "\"" ++ t.object ++ "\"" else "<" ++ t.object ++ ">") ++
        " .\n")
    ""

/-- `StandardRDFValidationService.serializeTriplesToNTriples`: same lexical
shape as the Turtle serializer. -/
def serializeTriplesToNTriples (triples : List RdfTriple) : String :=
  serializeTriplesToTurtle triples

/-- `StandardRDFValidationService.serializeTriplesToN3` delegates to the
Turtle serializer. -/
def serializeTriplesToN3 (triples : List RdfTriple) : String :=
  serializeTriplesToTurtle triples

/-- `StandardRDFValidationService.serializeTriplesToRDFXML`: one
`rdf:Description` for the first subject, carrying the triples that share
it. -/
def serializeTriplesToRDFXML (triples : List RdfTriple) : String :=
  let header := "<?xml version=\"1.0\" encoding=\"UTF-8\"?>\n" ++
    "<rdf:RDF xmlns:rdf=\"http://www.w3.org/1999/02/22-rdf-syntax-ns#\">\n"
  let body :=
    match triples with
    | [] => ""
    | t0 :: _ =>
      "  <rdf:Description rdf:about=\"" ++ t0.subject ++ "\">\n" ++
        triples.foldl
          (fun acc t =>
            if t.subject = t0.subject then
              acc ++ "    <" ++ t.predicate ++ ">" ++
                (if t.isLiteral then t.object
                 else " rdf:resource=\"" ++ t.object ++ "\"") ++
                "</" ++ t.predicate ++ ">\n"
            else acc)
          "" ++
        "  </rdf:Description>\n"
  header ++ body ++ "</rdf:RDF>\n"

/-- The source-format dispatch of
`StandardRDFValidationService.ConvertFormat` (its first `switch`): parse
errors are wrapped as `"failed to parse source data: %w"`, unknown source
formats rejected. -/
def parseBySourceFormat (data fromFormat : String) :
    Except ConvertError (List RdfTriple) :=
  if fromFormat = formatJSONLD then
    (parseJSONLDToTriples data).mapError ConvertError.parseFailed
  else if fromFormat = formatTurtle then
    (parseTurtleToTriples data).mapError ConvertError.parseFailed
  else if fromFormat = formatRDFXML then
    (parseRDFXMLToTriples data).mapError ConvertError.parseFailed
  else if fromFormat = formatN3 then
    (parseN3ToTriples data).mapError ConvertError.parseFailed
  else if fromFormat = formatNTriples then
    (parseNTriplesToTriples data).mapError ConvertError.parseFailed
  else .error (.unsupportedSource fromFormat)

/-- `StandardRDFValidationService.ConvertFormat`: dispatch the source
format to its parser (unknown source formats rejected first), then the
target format to its serializer. -/
def ConvertFormat (data fromFormat toFormat : String) : Except ConvertError String :=
  match parseBySourceFormat data fromFormat with
  | .error e => .error e
  | .ok triples =>
    if toFormat = formatJSONLD then
      .ok (jsonMarshal (.obj (serializeTriplesToJSONLD triples)))
    else if toFormat = formatTurtle then
      .ok (serializeTriplesToTurtle triples)
    else if toFormat = formatRDFXML then
      .ok (serializeTriplesToRDFXML triples)
    else if toFormat = formatN3 then
      .ok (serializeTriplesToN3 triples)
    else if toFormat = formatNTriples then
      .ok (serializeTriplesToNTriples triples)
    else .error (.unsupportedTarget toFormat)

/-- The five formats `ConvertFormat` is wired to
(`SupportedFormats` minus the declared-but-unwired `application/rdf+json`).
-/
def supportedFormats : List String :=
  [formatJSONLD, formatTurtle, formatRDFXML, formatN3, formatNTriples]

/-! ## Domain events (`internal/domain/event/resource_events.go`) -/

/-- The event sum type: `ResourceCreatedEvent`, `ResourceURIAssignedEvent`,
`ResourceUpdatedEvent`, `ResourceDeletedEvent`, with their constructor-set
fields, the construction-time `occurredAt` timestamp (Unix seconds) and the
`version` that `SetVersion` overwrites at append time. -/
inductive DomainEvent where
  | created (resourceID data contentType extractedID : String)
      (occurredAt : Int) (version : Nat)
  | uriAssigned (resourceID uri : String) (occurredAt : Int) (version : Nat)
  | updated (resourceID previousData newData contentType : String)
      (occurredAt : Int) (version : Nat)
  | deleted (resourceID uri : String) (occurredAt : Int) (version : Nat)
deriving DecidableEq, Repr

namespace DomainEvent

/-- `AggregateID()`: the `resourceID` every constructor stores. -/
def aggregateID : DomainEvent → String
  | .created rid _ _ _ _ _ => rid
  | .uriAssigned rid _ _ _ => rid
  | .updated rid _ _ _ _ _ => rid
  | .deleted rid _ _ _ => rid

/-- `OccurredAt()`. -/
def occurredAt : DomainEvent → Int
  | .created _ _ _ _ t _ => t
  | .uriAssigned _ _ t _ => t
  | .updated _ _ _ _ t _ => t
  | .deleted _ _ t _ => t

/-- `SetVersion(version)`: the one mutator, used by the aggregate at append
time. -/
def setVersion : DomainEvent → Nat → DomainEvent
  | .created rid d ct ex t _, v => .created rid d ct ex t v
  | .uriAssigned rid u t _, v => .uriAssigned rid u t v
  | .updated rid pd nd ct t _, v => .updated rid pd nd ct t v
  | .deleted rid u t _, v => .deleted rid u t v

end DomainEvent

/-- `NewResourceCreatedEvent`: `occurredAt` is the construction time,
`version` starts at the default 1. -/
def newResourceCreatedEvent (resourceID data contentType extractedID : String)
    (now : Int) : DomainEvent :=
  .created resourceID data contentType extractedID now 1

/-- `NewResourceURIAssignedEvent`. -/
def newResourceURIAssignedEvent (resourceID uri : String) (now : Int) :
    DomainEvent :=
  .uriAssigned resourceID uri now 1

/-- `NewResourceUpdatedEvent`. -/
def newResourceUpdatedEvent (resourceID previousData newData contentType : String)
    (now : Int) : DomainEvent :=
  .updated resourceID previousData newData contentType now 1

/-- `NewResourceDeletedEvent`. -/
def newResourceDeletedEvent (resourceID uri : String) (now : Int) : DomainEvent :=
  .deleted resourceID uri now 1

/-! ## The pericarp entity base -/

/-- Modelled from the spec: the embedded pericarp `domain.Entity` lives in
an external repository.  Per the spec it carries the identifier, the
monotonic `version`/`sequence_no` counters and the ordered uncommitted
event sequence. -/
structure EntityState where
  id : String
  version : Nat
  sequenceNo : Nat
  uncommitted : List DomainEvent
deriving DecidableEq, Repr

/-- Modelled from the spec: `domain.NewEntity(id)` yields a fresh entity
with no history and no pending events. -/
def newEntity (id : String) : EntityState :=
  ⟨id, 0, 0, []⟩

/-- Modelled from the spec: `AddEvent` appends to the uncommitted sequence
and overwrites the event's version with its sequence position in the
stream. -/
def EntityState.addEvent (e : EntityState) (ev : DomainEvent) : EntityState :=
  { e with
    uncommitted :=
      e.uncommitted ++ [ev.setVersion (e.version + e.uncommitted.length + 1)] }

/-- Modelled from the spec: `MarkEventsAsCommitted` clears the uncommitted
sequence and nothing else. -/
def EntityState.markEventsAsCommitted (e : EntityState) : EntityState :=
  { e with uncommitted := [] }

/-- Modelled from the spec: the base `Entity.LoadFromHistory` advances the
`version`/`sequence_no` counters from the replayed stream. -/
def EntityState.loadFromHistory (e : EntityState) (events : List DomainEvent) :
    EntityState :=
  { e with
    version := e.version + events.length
    sequenceNo := e.sequenceNo + events.length }

/-! ## The Resource aggregate (`internal/domain/entity/resource.go`) -/

/-- The `rdfValidator` dependency of `BasicResource`: the three validation
entry points its construction methods call.  `NewBasicResourceWithValidator`
admits any implementation of this interface. -/
structure RDFValidationService where
  validateJSONLD : String → Except VError String
  validateTurtle : String → Except VError String
  validateRDFXML : String → Except VError String

/-- `BasicResource`: the embedded entity plus the event-derived fields.
`lastModified` holds Unix seconds (the granularity `GetETag` consumes);
`etag = ""` is the Go zero value meaning "not yet computed"; errors are
kept as their messages. -/
structure BasicResource where
  entity : EntityState
  uri : String
  contentType : String
  data : String
  lastModified : Int
  etag : String
  errors : List String
deriving DecidableEq, Repr

/-- `NewBasicResource()`: empty identifier, `lastModified := time.Now()`
(the explicit `now`). -/
def newBasicResource (now : Int) : BasicResource :=
  ⟨newEntity "", "", "", "", now, "", []⟩

namespace BasicResource

/-- `HasErrors()`. -/
def hasErrors (r : BasicResource) : Bool :=
  !r.errors.isEmpty

/-- `AddError(err)`. -/
def addError (r : BasicResource) (msg : String) : BasicResource :=
  { r with errors := r.errors ++ [msg] }

/-- The four private event appliers
(`applyResourceCreatedEvent`, `applyResourceURIAssignedEvent`,
`applyResourceUpdatedEvent`, `applyResourceDeletedEvent`), written as one
exhaustive match exactly as `LoadFromHistory` dispatches them.  Every
applier stamps `lastModified` from the event and resets the ETag cache. -/
def applyEvent (r : BasicResource) (ev : DomainEvent) : BasicResource :=
  match ev with
  | .created _ data ct _ occ _ =>
    { r with data := data, contentType := ct, lastModified := occ, etag := "" }
  | .uriAssigned _ uri occ _ =>
    { r with uri := uri, lastModified := occ, etag := "" }
  | .updated _ _ newData ct occ _ =>
    { r with data := newData, contentType := ct, lastModified := occ, etag := "" }
  | .deleted _ _ occ _ =>
    { r with lastModified := occ, etag := "" }

/-- `FromJSONLD(data)`: empty-input guard, errored short-circuit, validate,
replace the entity when the identifier is still unset (first successful
creation wins), then append and apply the creation event built from the
extracted identifier. -/
def fromJSONLD (v : RDFValidationService) (r : BasicResource) (data : String)
    (now : Int) : BasicResource :=
  if data = "" then r.addError "empty JSON-LD data"
  else if r.hasErrors then r
  else
    match v.validateJSONLD data with
    | .error e => r.addError ("JSON-LD validation failed: " ++ e.toMessage)
    | .ok resourceID =>
      let ent := if r.entity.id = "" then newEntity resourceID else r.entity
      let ev := newResourceCreatedEvent resourceID data formatJSONLD resourceID now
      ({ r with entity := ent.addEvent ev }).applyEvent ev

/-- `FromTurtle(data)`: same shape over `ValidateTurtle`. -/
def fromTurtle (v : RDFValidationService) (r : BasicResource) (data : String)
    (now : Int) : BasicResource :=
  if data = "" then r.addError "empty Turtle data"
  else if r.hasErrors then r
  else
    match v.validateTurtle data with
    | .error e => r.addError ("Turtle validation failed: " ++ e.toMessage)
    | .ok resourceID =>
      let ent := if r.entity.id = "" then newEntity resourceID else r.entity
      let ev := newResourceCreatedEvent resourceID data formatTurtle resourceID now
      ({ r with entity := ent.addEvent ev }).applyEvent ev

/-- `FromRDFXML(data)`: same shape over `ValidateRDFXML`. -/
def fromRDFXML (v : RDFValidationService) (r : BasicResource) (data : String)
    (now : Int) : BasicResource :=
  if data = "" then r.addError "empty RDF/XML data"
  else if r.hasErrors then r
  else
    match v.validateRDFXML data with
    | .error e => r.addError ("RDF/XML validation failed: " ++ e.toMessage)
    | .ok resourceID =>
      let ent := if r.entity.id = "" then newEntity resourceID else r.entity
      let ev := newResourceCreatedEvent resourceID data formatRDFXML resourceID now
      ({ r with entity := ent.addEvent ev }).applyEvent ev

/-- `WithURI(uri)`: empty-URI guard, errored short-circuit, then append and
apply a `ResourceURIAssignedEvent` bound to the current identifier. -/
def withURI (r : BasicResource) (uri : String) (now : Int) : BasicResource :=
  if uri = "" then r.addError "invalid URI"
  else if r.hasErrors then r
  else
    let ev := newResourceURIAssignedEvent r.entity.id uri now
    ({ r with entity := r.entity.addEvent ev }).applyEvent ev

/-- `Update(data, contentType)`: the errored short-circuit comes first,
then the empty-input guard; the event carries the pre-update data. -/
def update (r : BasicResource) (data contentType : String) (now : Int) :
    BasicResource :=
  if r.hasErrors then r
  else if data = "" then r.addError "empty update data"
  else
    let ev := newResourceUpdatedEvent r.entity.id r.data data contentType now
    ({ r with entity := r.entity.addEvent ev }).applyEvent ev

/-- `Delete()`: errored short-circuit, then append and apply a
`ResourceDeletedEvent` capturing the current URI. -/
def delete (r : BasicResource) (now : Int) : BasicResource :=
  if r.hasErrors then r
  else
    let ev := newResourceDeletedEvent r.entity.id r.uri now
    ({ r with entity := r.entity.addEvent ev }).applyEvent ev

/-- `LoadFromHistory(events)`: apply each event in order without
validation, then let the entity base advance its counters from the
stream. -/
def loadFromHistory (r : BasicResource) (events : List DomainEvent) :
    BasicResource :=
  let r' := events.foldl applyEvent r
  { r' with entity := r'.entity.loadFromHistory events }

end BasicResource

/-- The `fmt.Sprintf("%s-%d", data, lastModified.Unix())` content the ETag
fingerprints. -/
def etagContent (data : String) (lastModifiedUnix : Int) : String :=
  data ++ "-" ++ toString lastModifiedUnix

/-- Modelled from the spec: the md5 fingerprint rendered by
`fmt.Sprintf("%x", ...)` inside quotes; the hash itself is external
(`crypto/md5`), so the model keeps the fingerprinted content, preserving
"equal content, equal ETag". -/
def md5Quoted (content : String) : String :=
  "\"" ++ content ++ "\""

/-- `GetETag()`: compute and cache the fingerprint of
`(data, lastModified)` when the cache is empty, else return the cache.
The Go method mutates the receiver, so the model returns the value with
the updated resource. -/
def BasicResource.getETag (r : BasicResource) : String × BasicResource :=
  if r.etag = "" then
    let e := md5Quoted (etagContent r.data r.lastModified)
    (e, { r with etag := e })
  else (r.etag, r)

/-- The observable state the replay-determinism claim compares: id, uri,
data, content type, last-modified, ETag, version and sequence number. -/
structure Observables where
  id : String
  uri : String
  data : String
  contentType : String
  lastModified : Int
  etag : String
  version : Nat
  sequenceNo : Nat
deriving DecidableEq, Repr

/-- Project a resource onto its observable state (the ETag as `GetETag`
returns it). -/
def BasicResource.observe (r : BasicResource) : Observables :=
  ⟨r.entity.id, r.uri, r.data, r.contentType, r.lastModified,
   r.getETag.1, r.entity.version, r.entity.sequenceNo⟩

/-- The standard validator wiring (`NewStandardRDFValidationService`) for
the three entry points the aggregate uses.  `ValidateRDFXML` can fault (see
`validateRDFXMLRun`); that happens only on the empty input, which the
aggregate's empty-input guard never forwards, so the total wrapper maps the
fault to an error to fit the interface. -/
def stdService : RDFValidationService where
  validateJSONLD := validateJSONLD
  validateTurtle := validateTurtle
  validateRDFXML := fun s =>
    match validateRDFXMLRun (decodeFirstRDFXML s) with
    | .returned res => res
    | .crashed msg => .error ⟨formatRDFXML, msg⟩

/-! ## Helper lemmas -/

/-- `HasErrors()` is false exactly on an empty error list. -/
theorem hasErrors_eq_false_iff (r : BasicResource) :
    r.hasErrors = false ↔ r.errors = [] := by
  simp [BasicResource.hasErrors, List.isEmpty_iff]

/-- `AddError` leaves the embedded entity untouched. -/
theorem addError_entity (r : BasicResource) (m : String) :
    (r.addError m).entity = r.entity := rfl

/-- `AddError` appends exactly one error. -/
theorem addError_errors (r : BasicResource) (m : String) :
    (r.addError m).errors = r.errors ++ [m] := rfl

/-- `AddEvent` never changes the entity identifier. -/
theorem addEvent_id (e : EntityState) (ev : DomainEvent) :
    (e.addEvent ev).id = e.id := rfl

/-- `AddEvent` appends exactly the version-stamped event. -/
theorem addEvent_uncommitted (e : EntityState) (ev : DomainEvent) :
    (e.addEvent ev).uncommitted =
      e.uncommitted ++ [ev.setVersion (e.version + e.uncommitted.length + 1)] := rfl

/-- Event application touches only the derived fields, never the embedded
entity. -/
theorem applyEvent_entity (r : BasicResource) (ev : DomainEvent) :
    (r.applyEvent ev).entity = r.entity := by
  cases ev <;> rfl

/-- Event application never touches the error list. -/
theorem applyEvent_errors (r : BasicResource) (ev : DomainEvent) :
    (r.applyEvent ev).errors = r.errors := by
  cases ev <;> rfl

/-- A successfully parsed IRI token contains a scheme separator. -/
theorem parseIriTok_colon (w : List Char) (i : String)
    (h : parseIriTok w = some i) : i.data.contains ':' = true := by
  unfold parseIriTok at h
  split at h
  · split at h
    · split at h
      · next hcond =>
        cases h
        exact hcond.1
      · exact absurd h (by simp)
    · exact absurd h (by simp)
  · exact absurd h (by simp)

/-- Every triple a Turtle line parses to has a predicate containing a
scheme separator. -/
theorem parseTurtleLine_pred_colon (l : List Char) (t : GraphTriple)
    (h : parseTurtleLine l = some (some t)) :
    t.predicate.data.contains ':' = true := by
  unfold parseTurtleLine at h
  split at h
  · exact absurd h (by simp)
  · split at h
    · split at h
      · next hs hp ho =>
        cases h
        exact parseIriTok_colon _ _ hp
      · exact absurd h (by simp)
    · exact absurd h (by simp)
  · exact absurd h (by simp)

/-- Every triple produced by the line parser has a predicate containing a
scheme separator. -/
theorem parseTurtleLines_pred_colon (ls : List (List Char))
    (ts : List GraphTriple) (h : parseTurtleLines ls = some ts) :
    ∀ t ∈ ts, t.predicate.data.contains ':' = true := by
  induction ls generalizing ts with
  | nil =>
    cases h
    intro t ht
    exact absurd ht (List.not_mem_nil t)
  | cons l rest ih =>
    unfold parseTurtleLines at h
    split at h
    · next heq1 heq2 =>
      cases h
      exact ih _ heq2
    · next t' ts' heq1 heq2 =>
      cases h
      intro t ht
      rcases List.mem_cons.mp ht with h1 | h2
      · subst h1
        exact parseTurtleLine_pred_colon _ _ heq1
      · exact ih _ heq2 _ h2
    · exact absurd h (by simp)

/-- Every triple `turtleParse` yields has a predicate containing a scheme
separator (it is an absolute IRI). -/
theorem turtleParse_pred_colon (T : String) (ts : List GraphTriple)
    (h : turtleParse T = .ok ts) :
    ∀ t ∈ ts, t.predicate.data.contains ':' = true := by
  unfold turtleParse at h
  split at h
  · exact absurd h (by simp)
  · next heq =>
    cases h
    exact parseTurtleLines_pred_colon _ _ heq

/-- A predicate containing a scheme separator is not the `@id` key. -/
theorem pred_colon_ne_atId (p : String) (h : p.data.contains ':' = true) :
    p ≠ "@id" := by
  intro he
  rw [he] at h
  exact absurd h (by decide)

/-- Replacing the binding of a different key leaves a lookup unchanged. -/
theorem lookupKey_replace (m : List (String × Json)) (k k' : String) (v : Json)
    (h : k' ≠ k) :
    lookupKey (m.map (fun kv => if kv.1 = k' then (k', v) else kv)) k
      = lookupKey m k := by
  induction m with
  | nil => rfl
  | cons a rest ih =>
    obtain ⟨a1, a2⟩ := a
    by_cases ha : a1 = k'
    · subst ha
      simp only [List.map_cons]
      rw [if_pos trivial]
      simp only [lookupKey]
      rw [if_neg h, if_neg h]
      exact ih
    · simp only [List.map_cons]
      rw [if_neg ha]
      simp only [lookupKey]
      by_cases hak : a1 = k
      · rw [if_pos hak, if_pos hak]
      · rw [if_neg hak, if_neg hak]
        exact ih

/-- Appending a binding for a different key leaves a lookup unchanged. -/
theorem lookupKey_append_single (m : List (String × Json)) (k k' : String)
    (v : Json) (h : k' ≠ k) :
    lookupKey (m ++ [(k', v)]) k = lookupKey m k := by
  induction m with
  | nil => simp [lookupKey, h]
  | cons a rest ih =>
    obtain ⟨a1, a2⟩ := a
    simp only [List.cons_append, lookupKey]
    by_cases hak : a1 = k
    · simp [hak]
    · simp [hak, ih]

/-- A Go-map insert under a different key leaves a lookup unchanged. -/
theorem lookupKey_goMapInsert_ne (m : List (String × Json)) (k k' : String)
    (v : Json) (h : k' ≠ k) :
    lookupKey (goMapInsert m k' v) k = lookupKey m k := by
  unfold goMapInsert
  by_cases hany : (m.any (fun kv => kv.1 = k')) = true
  · rw [if_pos hany]
    exact lookupKey_replace m k k' v h
  · rw [if_neg hany]
    exact lookupKey_append_single m k k' v h

/-- Folding Go-map inserts keyed by predicates other than `@id` preserves
the `@id` binding. -/
theorem lookupKey_foldl_preserve (F : RdfTriple → Json) (ts : List RdfTriple)
    (m : List (String × Json)) (h : ∀ t ∈ ts, t.predicate ≠ "@id") :
    lookupKey (ts.foldl (fun m t => goMapInsert m t.predicate (F t)) m) "@id"
      = lookupKey m "@id" := by
  induction ts generalizing m with
  | nil => rfl
  | cons t rest ih =>
    rw [List.foldl_cons,
      ih _ (fun t' ht' => h t' (List.mem_cons_of_mem t ht')),
      lookupKey_goMapInsert_ne _ _ _ _ (h t (List.mem_cons_self t rest))]

/-! ## Claim theorems -/

/-- Claim C1.  On empty input, `ValidateJSONLD`, `ValidateTurtle` and
`ValidateN3` return typed validation errors, but `ValidateRDFXML` and
`ValidateNTriples` fault: their decoders report end-of-input (`io.EOF`)
together with the zero-valued `Triple`, and the subsequent
`triple.Subj.Type()` is a method call on a nil interface — a runtime panic
rather than the error value the claim requires. -/
theorem c1_empty_input_validators :
    validateJSONLD "" = .error ⟨formatJSONLD, "Invalid JSON syntax"⟩ ∧
    validateTurtle "" = .error ⟨formatTurtle, "No subject URI found in Turtle data"⟩ ∧
    validateN3 "" = .error ⟨formatN3, "No subject URI found in N3 data"⟩ ∧
    validateRDFXMLRun (decodeFirstRDFXML "") =
      .crashed "nil interface dereference in triple.Subj.Type()" ∧
    validateNTriplesRun (decodeFirstNTriples "") =
      .crashed "nil interface dereference in triple.Subj.Type()" :=
  ⟨rfl, rfl, rfl, rfl, rfl⟩

/-- Claim C2, counterexample.  The chain
`from_json_ld("").with_uri("https://a.example/x")` on a fresh aggregate
ends with exactly 1 accumulated error, not the 2 the claim states
(`WithURI` with a non-empty URI reaches the errored short-circuit and adds
nothing); the uncommitted-events part (0 events) does hold. -/
theorem c2_counterexample :
    (((newBasicResource 0).fromJSONLD stdService "" 1).withURI
        "https://a.example/x" 2).errors = ["empty JSON-LD data"] ∧
    (((newBasicResource 0).fromJSONLD stdService "" 1).withURI
        "https://a.example/x" 2).entity.uncommitted = [] :=
  ⟨rfl, rfl⟩

/-- Claim C2, amended.  Once `HasErrors()` is true, every further chained
operation leaves the uncommitted events unchanged; but an operation appends
exactly one error only when its own input guard fires before the error
check (empty data for the creation methods, empty URI for `WithURI`), and
appends no error at all otherwise — in particular the concrete chain ends
with exactly 1 error and 0 events. -/
theorem c2_errored_short_circuit (v : RDFValidationService) (r : BasicResource)
    (d u ct : String) (now : Int) (h : r.hasErrors = true)
    (hd : d ≠ "") (hu : u ≠ "") :
    (r.fromJSONLD v d now = r) ∧
    (r.fromTurtle v d now = r) ∧
    (r.fromRDFXML v d now = r) ∧
    (r.withURI u now = r) ∧
    (r.update d ct now = r) ∧
    (r.update "" ct now = r) ∧
    (r.delete now = r) ∧
    ((r.fromJSONLD v "" now).errors.length = r.errors.length + 1 ∧
      (r.fromJSONLD v "" now).entity.uncommitted = r.entity.uncommitted) ∧
    ((r.fromTurtle v "" now).errors.length = r.errors.length + 1 ∧
      (r.fromTurtle v "" now).entity.uncommitted = r.entity.uncommitted) ∧
    ((r.fromRDFXML v "" now).errors.length = r.errors.length + 1 ∧
      (r.fromRDFXML v "" now).entity.uncommitted = r.entity.uncommitted) ∧
    ((r.withURI "" now).errors.length = r.errors.length + 1 ∧
      (r.withURI "" now).entity.uncommitted = r.entity.uncommitted) ∧
    ((((newBasicResource 0).fromJSONLD v "" 1).withURI
        "https://a.example/x" 2).errors.length = 1 ∧
      (((newBasicResource 0).fromJSONLD v "" 1).withURI
        "https://a.example/x" 2).entity.uncommitted = []) := by
  refine ⟨?_, ?_, ?_, ?_, ?_, ?_, ?_, ?_, ?_, ?_, ?_, ?_⟩
  · simp [BasicResource.fromJSONLD, hd, h]
  · simp [BasicResource.fromTurtle, hd, h]
  · simp [BasicResource.fromRDFXML, hd, h]
  · simp [BasicResource.withURI, hu, h]
  · simp [BasicResource.update, h]
  · simp [BasicResource.update, h]
  · simp [BasicResource.delete, h]
  · simp [BasicResource.fromJSONLD, BasicResource.addError]
  · simp [BasicResource.fromTurtle, BasicResource.addError]
  · simp [BasicResource.fromRDFXML, BasicResource.addError]
  · simp [BasicResource.withURI, BasicResource.addError]
  · exact ⟨rfl, rfl⟩

/-- Claim C2 witness: the amended statement instantiated on an aggregate
errored through the public `AddError`. -/
theorem c2_errored_short_circuit_witness :
    (((newBasicResource 0).addError "boom").fromJSONLD stdService "x" 1
        = (newBasicResource 0).addError "boom") ∧
    (((newBasicResource 0).addError "boom").fromTurtle stdService "x" 1
        = (newBasicResource 0).addError "boom") ∧
    (((newBasicResource 0).addError "boom").fromRDFXML stdService "x" 1
        = (newBasicResource 0).addError "boom") ∧
    (((newBasicResource 0).addError "boom").withURI "https://a.example/x" 1
        = (newBasicResource 0).addError "boom") ∧
    (((newBasicResource 0).addError "boom").update "x" "text/plain" 1
        = (newBasicResource 0).addError "boom") ∧
    (((newBasicResource 0).addError "boom").update "" "text/plain" 1
        = (newBasicResource 0).addError "boom") ∧
    (((newBasicResource 0).addError "boom").delete 1
        = (newBasicResource 0).addError "boom") ∧
    ((((newBasicResource 0).addError "boom").fromJSONLD stdService "" 1).errors.length
        = ((newBasicResource 0).addError "boom").errors.length + 1 ∧
      (((newBasicResource 0).addError "boom").fromJSONLD stdService "" 1).entity.uncommitted
        = ((newBasicResource 0).addError "boom").entity.uncommitted) ∧
    ((((newBasicResource 0).addError "boom").fromTurtle stdService "" 1).errors.length
        = ((newBasicResource 0).addError "boom").errors.length + 1 ∧
      (((newBasicResource 0).addError "boom").fromTurtle stdService "" 1).entity.uncommitted
        = ((newBasicResource 0).addError "boom").entity.uncommitted) ∧
    ((((newBasicResource 0).addError "boom").fromRDFXML stdService "" 1).errors.length
        = ((newBasicResource 0).addError "boom").errors.length + 1 ∧
      (((newBasicResource 0).addError "boom").fromRDFXML stdService "" 1).entity.uncommitted
        = ((newBasicResource 0).addError "boom").entity.uncommitted) ∧
    ((((newBasicResource 0).addError "boom").withURI "" 1).errors.length
        = ((newBasicResource 0).addError "boom").errors.length + 1 ∧
      (((newBasicResource 0).addError "boom").withURI "" 1).entity.uncommitted
        = ((newBasicResource 0).addError "boom").entity.uncommitted) ∧
    ((((newBasicResource 0).fromJSONLD stdService "" 1).withURI
        "https://a.example/x" 2).errors.length = 1 ∧
      (((newBasicResource 0).fromJSONLD stdService "" 1).withURI
        "https://a.example/x" 2).entity.uncommitted = []) :=
  c2_errored_short_circuit stdService ((newBasicResource 0).addError "boom")
    "x" "https://a.example/x" "text/plain" 1 (by decide) (by decide) (by decide)

/-- Claim C3, counterexample.  After a first successful creation from
`@id https://a.example/A`, a second successful creation from
`@id https://a.example/B` leaves the aggregate identifier at
`https://a.example/A` but appends a creation event whose `aggregate_id` is
`https://a.example/B` — an event whose `aggregate_id` differs from the
aggregate's identifier at append time, contradicting the claim. -/
theorem c3_counterexample :
    (((newBasicResource 0).fromJSONLD stdService
        "\x7b\"@id\":\"https://a.example/A\"\x7d" 1).fromJSONLD stdService
        "\x7b\"@id\":\"https://a.example/B\"\x7d" 2).entity.id
      = "https://a.example/A" ∧
    ((((newBasicResource 0).fromJSONLD stdService
        "\x7b\"@id\":\"https://a.example/A\"\x7d" 1).fromJSONLD stdService
        "\x7b\"@id\":\"https://a.example/B\"\x7d" 2).entity.uncommitted.map
          DomainEvent.aggregateID)
      = ["https://a.example/A", "https://a.example/B"] ∧
    ("https://a.example/B" : String) ≠ "https://a.example/A" :=
  ⟨rfl, rfl, by decide⟩

/-- Claim C3, amended.  The identifier, once set, is never changed by any
operation; the events of `WithURI`, `Update` and `Delete` carry the
aggregate's identifier at append time; but a creation event is bound to
the identifier extracted from its own input, which on a second successful
creation call may differ from the aggregate's identifier. -/
theorem c3_identifier_immutable_event_binding (v : RDFValidationService)
    (r : BasicResource) (d u ct x : String) (now : Int)
    (hid : r.entity.id ≠ "") (herr : r.hasErrors = false)
    (hu : u ≠ "") (hd : d ≠ "") (hx : v.validateJSONLD d = .ok x) :
    (r.fromJSONLD v d now).entity.id = r.entity.id ∧
    (∀ d', (r.fromTurtle v d' now).entity.id = r.entity.id) ∧
    (∀ d', (r.fromRDFXML v d' now).entity.id = r.entity.id) ∧
    (∀ u', (r.withURI u' now).entity.id = r.entity.id) ∧
    (∀ d' ct', (r.update d' ct' now).entity.id = r.entity.id) ∧
    ((r.delete now).entity.id = r.entity.id) ∧
    (∃ ver, (r.withURI u now).entity.uncommitted
        = r.entity.uncommitted ++ [.uriAssigned r.entity.id u now ver]) ∧
    (∃ ver, (r.update d ct now).entity.uncommitted
        = r.entity.uncommitted ++ [.updated r.entity.id r.data d ct now ver]) ∧
    (∃ ver, (r.delete now).entity.uncommitted
        = r.entity.uncommitted ++ [.deleted r.entity.id r.uri now ver]) ∧
    (∃ ver, (r.fromJSONLD v d now).entity.uncommitted
        = r.entity.uncommitted ++ [.created x d formatJSONLD x now ver]) := by
  refine ⟨?_, ?_, ?_, ?_, ?_, ?_, ?_, ?_, ?_, ?_⟩
  · simp only [BasicResource.fromJSONLD, if_neg hd, herr, Bool.false_eq_true,
      if_false, hx]
    rw [applyEvent_entity, addEvent_id]
    simp [hid]
  · intro d'
    by_cases hd' : d' = ""
    · simp [BasicResource.fromTurtle, hd', BasicResource.addError]
    · simp only [BasicResource.fromTurtle, if_neg hd', herr, Bool.false_eq_true,
        if_false]
      cases hv : v.validateTurtle d' with
      | error e => simp [BasicResource.addError]
      | ok rid =>
        rw [applyEvent_entity, addEvent_id]
        simp [hid]
  · intro d'
    by_cases hd' : d' = ""
    · simp [BasicResource.fromRDFXML, hd', BasicResource.addError]
    · simp only [BasicResource.fromRDFXML, if_neg hd', herr, Bool.false_eq_true,
        if_false]
      cases hv : v.validateRDFXML d' with
      | error e => simp [BasicResource.addError]
      | ok rid =>
        rw [applyEvent_entity, addEvent_id]
        simp [hid]
  · intro u'
    by_cases hu' : u' = ""
    · simp [BasicResource.withURI, hu', BasicResource.addError]
    · simp only [BasicResource.withURI, if_neg hu', herr, Bool.false_eq_true,
        if_false]
      rw [applyEvent_entity, addEvent_id]
  · intro d' ct'
    by_cases hd' : d' = ""
    · simp [BasicResource.update, hd', herr, BasicResource.addError]
    · simp only [BasicResource.update, if_neg hd', herr, Bool.false_eq_true,
        if_false]
      rw [applyEvent_entity, addEvent_id]
  · simp only [BasicResource.delete, herr, Bool.false_eq_true, if_false]
    rw [applyEvent_entity, addEvent_id]
  · refine ⟨r.entity.version + r.entity.uncommitted.length + 1, ?_⟩
    simp only [BasicResource.withURI, if_neg hu, herr, Bool.false_eq_true,
      if_false]
    rw [applyEvent_entity]
    simp [EntityState.addEvent, newResourceURIAssignedEvent, DomainEvent.setVersion]
  · refine ⟨r.entity.version + r.entity.uncommitted.length + 1, ?_⟩
    simp only [BasicResource.update, if_neg hd, herr, Bool.false_eq_true,
      if_false]
    rw [applyEvent_entity]
    simp [EntityState.addEvent, newResourceUpdatedEvent, DomainEvent.setVersion]
  · refine ⟨r.entity.version + r.entity.uncommitted.length + 1, ?_⟩
    simp only [BasicResource.delete, herr, Bool.false_eq_true, if_false]
    rw [applyEvent_entity]
    simp [EntityState.addEvent, newResourceDeletedEvent, DomainEvent.setVersion]
  · refine ⟨r.entity.version + r.entity.uncommitted.length + 1, ?_⟩
    simp only [BasicResource.fromJSONLD, if_neg hd, herr, Bool.false_eq_true,
      if_false, hx]
    rw [applyEvent_entity]
    simp [hid, EntityState.addEvent, newResourceCreatedEvent, DomainEvent.setVersion]

/-- Claim C3 witness: the amended statement on an aggregate already
identified as `https://a.example/A`, fed a second input whose extracted
identifier is `https://a.example/B`. -/
theorem c3_identifier_immutable_event_binding_witness :
    ((((newBasicResource 0).fromJSONLD stdService
        "\x7b\"@id\":\"https://a.example/A\"\x7d" 1).fromJSONLD stdService
        "\x7b\"@id\":\"https://a.example/B\"\x7d" 2).entity.id
      = ((newBasicResource 0).fromJSONLD stdService
        "\x7b\"@id\":\"https://a.example/A\"\x7d" 1).entity.id) ∧
    (∃ ver, (((newBasicResource 0).fromJSONLD stdService
        "\x7b\"@id\":\"https://a.example/A\"\x7d" 1).fromJSONLD stdService
        "\x7b\"@id\":\"https://a.example/B\"\x7d" 2).entity.uncommitted
      = ((newBasicResource 0).fromJSONLD stdService
          "\x7b\"@id\":\"https://a.example/A\"\x7d" 1).entity.uncommitted ++
        [.created "https://a.example/B" "\x7b\"@id\":\"https://a.example/B\"\x7d"
          formatJSONLD "https://a.example/B" 2 ver]) :=
  ⟨(c3_identifier_immutable_event_binding stdService
      ((newBasicResource 0).fromJSONLD stdService
        "\x7b\"@id\":\"https://a.example/A\"\x7d" 1)
      "\x7b\"@id\":\"https://a.example/B\"\x7d" "https://a.example/u" "text/plain"
      "https://a.example/B" 2 (by decide) (by decide) (by decide) (by decide)
      rfl).1,
   (c3_identifier_immutable_event_binding stdService
      ((newBasicResource 0).fromJSONLD stdService
        "\x7b\"@id\":\"https://a.example/A\"\x7d" 1)
      "\x7b\"@id\":\"https://a.example/B\"\x7d" "https://a.example/u" "text/plain"
      "https://a.example/B" 2 (by decide) (by decide) (by decide) (by decide)
      rfl).2.2.2.2.2.2.2.2.2⟩

/-- Claim C4, counterexample.  `{"@id":""}` carries an empty-string `@id`;
the claim requires a `NoIdentifierFound` error, but `ValidateJSONLD`
returns the empty string as the extracted identifier and the aggregate
records no error. -/
theorem c4_counterexample :
    validateJSONLD "\x7b\"@id\":\"\"\x7d" = .ok "" ∧
    ((newBasicResource 0).fromJSONLD stdService "\x7b\"@id\":\"\"\x7d" 1).errors
      = [] :=
  ⟨rfl, rfl⟩

/-- Claim C4, amended.  `ValidateJSONLD` returns the top-level `@id` value
exactly when the input parses as JSON, is JSON-LD-expandable and has a
top-level `@id` whose value is a string — the empty string included; a
missing `@id` (after successful expansion) yields `NoIdentifierFound`, a
non-string `@id` fails JSON-LD expansion, malformed JSON yields
`SyntaxError`; and every validated text gives `from_json_ld` on a fresh
aggregate an identifier equal to the extracted `@id` with no errors. -/
theorem c4_jsonld_validation (s x : String) (t now : Int) :
    (validateJSONLD s = .ok x ↔
      ∃ j, jsonUnmarshal s = some j ∧ jsonLdExpandOk j = true ∧
        topLevelId j = some x) ∧
    (jsonUnmarshal s = none →
      validateJSONLD s = .error ⟨formatJSONLD, "Invalid JSON syntax"⟩) ∧
    (∀ j, jsonUnmarshal s = some j → jsonLdExpandOk j = true →
      topLevelId j = none →
      validateJSONLD s = .error ⟨formatJSONLD, "No @id field found in JSON-LD"⟩) ∧
    (∀ j, jsonUnmarshal s = some j → jsonLdExpandOk j = false →
      validateJSONLD s = .error ⟨formatJSONLD, "JSON-LD expansion failed"⟩) ∧
    (validateJSONLD s = .ok x →
      ((newBasicResource t).fromJSONLD stdService s now).entity.id = x ∧
      ((newBasicResource t).fromJSONLD stdService s now).errors = []) := by
  refine ⟨?_, ?_, ?_, ?_, ?_⟩
  · constructor
    · intro h
      cases hj : jsonUnmarshal s with
      | none => simp [validateJSONLD, hj] at h
      | some j =>
        by_cases he : jsonLdExpandOk j = true
        · cases ht : topLevelId j with
          | none => simp [validateJSONLD, hj, he, ht] at h
          | some s' =>
            have hv : validateJSONLD s = .ok s' := by
              simp [validateJSONLD, hj, he, ht]
            rw [hv] at h
            injection h with hh
            exact ⟨j, rfl, he, by rw [ht, hh]⟩
        · simp [validateJSONLD, hj, he] at h
    · rintro ⟨j, hj, he, ht⟩
      simp [validateJSONLD, hj, he, ht]
  · intro hj
    simp [validateJSONLD, hj]
  · intro j hj he ht
    simp [validateJSONLD, hj, he, ht]
  · intro j hj he
    simp [validateJSONLD, hj, he]
  · intro hok
    have hs : s ≠ "" := by
      intro h0
      rw [h0] at hok
      have hnone : jsonUnmarshal "" = none := rfl
      simp [validateJSONLD, hnone] at hok
    constructor
    · simp only [BasicResource.fromJSONLD, if_neg hs]
      have hfe : (newBasicResource t).hasErrors = false := rfl
      simp only [hfe, Bool.false_eq_true, if_false]
      have hstd : stdService.validateJSONLD s = .ok x := hok
      rw [hstd]
      rw [applyEvent_entity, addEvent_id]
      simp [newBasicResource, newEntity]
    · simp only [BasicResource.fromJSONLD, if_neg hs]
      have hfe : (newBasicResource t).hasErrors = false := rfl
      simp only [hfe, Bool.false_eq_true, if_false]
      have hstd : stdService.validateJSONLD s = .ok x := hok
      rw [hstd]
      rfl

/-- Claim C4 witness: the amended statement exercised on scenario 1's
input and on malformed JSON. -/
theorem c4_jsonld_validation_witness :
    (((newBasicResource 0).fromJSONLD stdService
        "\x7b\"@id\":\"https://a.example/n1\",\"@type\":\"Note\"\x7d" 1).entity.id
      = "https://a.example/n1" ∧
     ((newBasicResource 0).fromJSONLD stdService
        "\x7b\"@id\":\"https://a.example/n1\",\"@type\":\"Note\"\x7d" 1).errors
      = []) ∧
    validateJSONLD "\x7b" = .error ⟨formatJSONLD, "Invalid JSON syntax"⟩ :=
  ⟨(c4_jsonld_validation "\x7b\"@id\":\"https://a.example/n1\",\"@type\":\"Note\"\x7d"
      "https://a.example/n1" 0 1).2.2.2.2 rfl,
   (c4_jsonld_validation "\x7b" "" 0 1).2.1 rfl⟩

/-- Claim C9.  The empty-input guard precedes the errored short-circuit in
`FromJSONLD`, `FromTurtle`, `FromRDFXML` and `WithURI` — each, called with
empty input on an already-errored aggregate, appends one more error and no
event — while `Update` checks the error flag first, so `Update("")` on an
errored aggregate changes nothing at all. -/
theorem c9_guard_order (v : RDFValidationService) (r : BasicResource)
    (ct : String) (now : Int) (h : r.hasErrors = true) :
    (r.fromJSONLD v "" now).errors = r.errors ++ ["empty JSON-LD data"] ∧
    (r.fromJSONLD v "" now).entity = r.entity ∧
    (r.fromTurtle v "" now).errors = r.errors ++ ["empty Turtle data"] ∧
    (r.fromTurtle v "" now).entity = r.entity ∧
    (r.fromRDFXML v "" now).errors = r.errors ++ ["empty RDF/XML data"] ∧
    (r.fromRDFXML v "" now).entity = r.entity ∧
    (r.withURI "" now).errors = r.errors ++ ["invalid URI"] ∧
    (r.withURI "" now).entity = r.entity ∧
    r.update "" ct now = r := by
  refine ⟨rfl, rfl, rfl, rfl, rfl, rfl, rfl, rfl, ?_⟩
  simp [BasicResource.update, h]

/-- Claim C9 witness: the guard-order facts on a concrete errored
aggregate. -/
theorem c9_guard_order_witness :
    ((((newBasicResource 0).addError "boom").fromJSONLD stdService "" 1).errors
        = ((newBasicResource 0).addError "boom").errors ++ ["empty JSON-LD data"]) ∧
    ((((newBasicResource 0).addError "boom").fromJSONLD stdService "" 1).entity
        = ((newBasicResource 0).addError "boom").entity) ∧
    ((((newBasicResource 0).addError "boom").fromTurtle stdService "" 1).errors
        = ((newBasicResource 0).addError "boom").errors ++ ["empty Turtle data"]) ∧
    ((((newBasicResource 0).addError "boom").fromTurtle stdService "" 1).entity
        = ((newBasicResource 0).addError "boom").entity) ∧
    ((((newBasicResource 0).addError "boom").fromRDFXML stdService "" 1).errors
        = ((newBasicResource 0).addError "boom").errors ++ ["empty RDF/XML data"]) ∧
    ((((newBasicResource 0).addError "boom").fromRDFXML stdService "" 1).entity
        = ((newBasicResource 0).addError "boom").entity) ∧
    ((((newBasicResource 0).addError "boom").withURI "" 1).errors
        = ((newBasicResource 0).addError "boom").errors ++ ["invalid URI"]) ∧
    ((((newBasicResource 0).addError "boom").withURI "" 1).entity
        = ((newBasicResource 0).addError "boom").entity) ∧
    ((newBasicResource 0).addError "boom").update "" "text/plain" 1
        = (newBasicResource 0).addError "boom" :=
  c9_guard_order stdService ((newBasicResource 0).addError "boom")
    "text/plain" 1 (by decide)

/-- Claim C10.  `WithURI`, `Update` and `Delete` have no created-already
precondition: on a fresh, non-errored, never-created aggregate each
succeeds without recording an error and appends exactly one event whose
`aggregate_id` is the empty string (the aggregate's still-empty
identifier). -/
theorem c10_no_creation_precondition (t now : Int) (u d ct : String)
    (hu : u ≠ "") (hd : d ≠ "") :
    (∃ ver, ((newBasicResource t).withURI u now).entity.uncommitted
        = [.uriAssigned "" u now ver]) ∧
    ((newBasicResource t).withURI u now).errors = [] ∧
    (∃ ver, ((newBasicResource t).update d ct now).entity.uncommitted
        = [.updated "" "" d ct now ver]) ∧
    ((newBasicResource t).update d ct now).errors = [] ∧
    (∃ ver, ((newBasicResource t).delete now).entity.uncommitted
        = [.deleted "" "" now ver]) ∧
    ((newBasicResource t).delete now).errors = [] := by
  refine ⟨⟨1, ?_⟩, ?_, ⟨1, ?_⟩, ?_, ⟨1, ?_⟩, ?_⟩ <;>
    simp [BasicResource.withURI, BasicResource.update, BasicResource.delete,
      BasicResource.applyEvent, BasicResource.hasErrors,
      newBasicResource, newEntity, EntityState.addEvent,
      newResourceURIAssignedEvent, newResourceUpdatedEvent,
      newResourceDeletedEvent, DomainEvent.setVersion, hu, hd]

/-- Claim C5, counterexample.  With a supported source format whose
parsing fails and an unsupported target format, `ConvertFormat` returns
the wrapped parse error, not an `UnsupportedFormatError` naming the
rejected target — so the claim's "for every input data" fails. -/
theorem c5_counterexample :
    ConvertFormat "\x7b" formatJSONLD "unsupported/x"
      = .error (.parseFailed "invalid JSON") ∧
    ConvertFormat "\x7b" formatJSONLD "unsupported/x"
      ≠ .error (.unsupportedTarget "unsupported/x") ∧
    ("unsupported/x" : String) ∉ supportedFormats := by
  refine ⟨rfl, ?_, by decide⟩
  intro hc
  have h1 : ConvertFormat "\x7b" formatJSONLD "unsupported/x"
      = .error (.parseFailed "invalid JSON") := rfl
  rw [h1] at hc
  simp at hc

/-- Claim C5, amended.  An unsupported source format is rejected with an
`UnsupportedFormatError` naming it for every input; an unsupported target
format is rejected with an `UnsupportedFormatError` naming it whenever the
source data parsed; but when source parsing fails the parse error is
returned instead, even if the target format is also unsupported. -/
theorem c5_unsupported_format_dispatch (data f toF : String)
    (ts : List RdfTriple) :
    (f ∉ supportedFormats →
      ConvertFormat data f toF = .error (.unsupportedSource f)) ∧
    (toF ∉ supportedFormats → parseBySourceFormat data f = .ok ts →
      ConvertFormat data f toF = .error (.unsupportedTarget toF)) ∧
    (∀ c, parseBySourceFormat data f = .error c →
      ConvertFormat data f toF = .error c) := by
  refine ⟨?_, ?_, ?_⟩
  · intro hf
    simp only [supportedFormats, List.mem_cons, List.not_mem_nil, or_false,
      not_or] at hf
    obtain ⟨h1, h2, h3, h4, h5⟩ := hf
    have hp : parseBySourceFormat data f = .error (.unsupportedSource f) := by
      unfold parseBySourceFormat
      rw [if_neg h1, if_neg h2, if_neg h3, if_neg h4, if_neg h5]
    simp [ConvertFormat, hp]
  · intro ht hok
    simp only [supportedFormats, List.mem_cons, List.not_mem_nil, or_false,
      not_or] at ht
    obtain ⟨h1, h2, h3, h4, h5⟩ := ht
    simp only [ConvertFormat, hok]
    rw [if_neg h1, if_neg h2, if_neg h3, if_neg h4, if_neg h5]
  · intro c hc
    simp [ConvertFormat, hc]

/-- Claim C5 witness: the amended statement at the spec's scenario 6 input
and at an unsupported target over successfully parsed Turtle. -/
theorem c5_unsupported_format_dispatch_witness :
    ("unsupported/x" : String) ∉ supportedFormats ∧
    ConvertFormat "d" "unsupported/x" formatTurtle
      = .error (.unsupportedSource "unsupported/x") ∧
    ConvertFormat "" formatTurtle "unsupported/x"
      = .error (.unsupportedTarget "unsupported/x") :=
  ⟨by decide,
   (c5_unsupported_format_dispatch "d" "unsupported/x" formatTurtle []).1
     (by decide),
   (c5_unsupported_format_dispatch "" formatTurtle "unsupported/x" []).2.1
     (by decide) rfl⟩

/-- Claim C6.  For every Turtle text whose parse yields a first triple
with subject `S`, converting from Turtle to JSON-LD succeeds and the
marshalled JSON object binds `"@id"` to `S`: the predicates of parsed
triples are absolute IRIs (they contain `:`), so no predicate binding can
displace the `"@id"` key. -/
theorem c6_turtle_to_jsonld_first_subject (T : String) (g0 : GraphTriple)
    (rest : List GraphTriple) (h : turtleParse T = .ok (g0 :: rest)) :
    ∃ kvs, ConvertFormat T formatTurtle formatJSONLD
        = .ok (jsonMarshal (.obj kvs)) ∧
      lookupKey kvs "@id" = some (.str g0.subject) := by
  have hpred : ∀ t ∈ (g0 :: rest).map (fun g =>
      (⟨g.subject, g.predicate, g.object, startsWithQuote g.object⟩ : RdfTriple)),
      t.predicate ≠ "@id" := by
    intro t ht
    obtain ⟨g, hg, rfl⟩ := List.mem_map.mp ht
    exact pred_colon_ne_atId _ (turtleParse_pred_colon T _ h g hg)
  refine ⟨serializeTriplesToJSONLD ((g0 :: rest).map (fun g =>
      ⟨g.subject, g.predicate, g.object, startsWithQuote g.object⟩)), ?_, ?_⟩
  · have hp : parseBySourceFormat T formatTurtle
        = .ok ((g0 :: rest).map (fun g =>
            ⟨g.subject, g.predicate, g.object, startsWithQuote g.object⟩)) := by
      unfold parseBySourceFormat
      rw [if_neg (by decide), if_pos rfl]
      simp only [parseTurtleToTriples, h]
      rfl
    simp [ConvertFormat, hp]
  · simp only [List.map_cons, serializeTriplesToJSONLD]
    rw [lookupKey_foldl_preserve _ _ _ (by simpa using hpred)]
    rfl

/-- Claim C6 witness at the spec's scenario 3 style input. -/
theorem c6_turtle_to_jsonld_first_subject_witness :
    ∃ kvs, ConvertFormat
        "<https://a.example/x> <http://schema.org/p> <https://b.example/y> ."
        formatTurtle formatJSONLD
        = .ok (jsonMarshal (.obj kvs)) ∧
      lookupKey kvs "@id" = some (.str "https://a.example/x") :=
  c6_turtle_to_jsonld_first_subject
    "<https://a.example/x> <http://schema.org/p> <https://b.example/y> ."
    ⟨"https://a.example/x", "http://schema.org/p", "https://b.example/y"⟩ []
    rfl

/-- The ETag fingerprint is never the empty string (the cache sentinel). -/
theorem md5Quoted_ne_empty (s : String) : md5Quoted s ≠ "" := by
  intro h
  have hd := congrArg String.data h
  obtain ⟨l⟩ := s
  simp [md5Quoted, String.instAppend, String.append] at hd

/-- Claim C7, counterexample.  A successful `Update` that writes identical
data within the same Unix second leaves the recomputed ETag equal to the
pre-update one, contradicting "changes after any successful update": the
second update below succeeds (no errors, a second event appended) yet
`etag()` returns the same value as before it. -/
theorem c7_counterexample :
    ((((newBasicResource 5).update "a" "text/plain" 5).getETag.2.update
        "a" "text/plain" 5).getETag.1)
      = (((newBasicResource 5).update "a" "text/plain" 5).getETag.1) ∧
    ((((newBasicResource 5).update "a" "text/plain" 5).getETag.2.update
        "a" "text/plain" 5).errors = []) ∧
    ((((newBasicResource 5).update "a" "text/plain" 5).getETag.2.update
        "a" "text/plain" 5).entity.uncommitted.length = 2) :=
  ⟨rfl, rfl, rfl⟩

/-- Claim C7, amended.  `etag()` is stable across repeated calls with no
intervening mutation and is the cached fingerprint of
`(data, last_modified)`; a successful `update()` clears the cache, so the
next `etag()` is recomputed from the new pair — it therefore differs
exactly when the fingerprinted pair differs, and an update writing the
same data in the same Unix second leaves it unchanged. -/
theorem c7_etag_stability_and_update (r : BasicResource) (d ct : String)
    (now : Int) (herr : r.hasErrors = false) (hd : d ≠ "") :
    (r.getETag.2.getETag = r.getETag) ∧
    (r.etag = "" → r.getETag.1 = md5Quoted (etagContent r.data r.lastModified)) ∧
    ((r.update d ct now).getETag.1 = md5Quoted (etagContent d now)) := by
  refine ⟨?_, ?_, ?_⟩
  · by_cases he : r.etag = ""
    · simp only [BasicResource.getETag, if_pos he]
      rw [if_neg (md5Quoted_ne_empty _)]
    · simp only [BasicResource.getETag, if_neg he]
  · intro he
    simp only [BasicResource.getETag, if_pos he]
  · simp only [BasicResource.update, herr, Bool.false_eq_true, if_false,
      if_neg hd]
    rfl

/-- Claim C7 witness: stability and post-update recomputation on a
concrete resource. -/
theorem c7_etag_stability_and_update_witness :
    ((newBasicResource 5).getETag.2.getETag = (newBasicResource 5).getETag) ∧
    ((newBasicResource 5).etag = "" →
      (newBasicResource 5).getETag.1
        = md5Quoted (etagContent (newBasicResource 5).data
            (newBasicResource 5).lastModified)) ∧
    (((newBasicResource 5).update "a" "text/plain" 6).getETag.1
      = md5Quoted (etagContent "a" 6)) :=
  c7_etag_stability_and_update (newBasicResource 5) "a" "text/plain" 6
    (by decide) (by decide)

/-- Replaying one event erases every difference between two fresh
aggregates (their only differing field, the construction-time
`lastModified`, is overwritten by the event's `occurredAt`). -/
theorem applyEvent_fresh (t1 t2 : Int) (e : DomainEvent) :
    (newBasicResource t1).applyEvent e = (newBasicResource t2).applyEvent e := by
  cases e <;> rfl

/-- Replaying a non-empty history on two fresh aggregates yields equal
resources outright. -/
theorem loadFromHistory_fresh_cons (t1 t2 : Int) (e : DomainEvent)
    (es : List DomainEvent) :
    (newBasicResource t1).loadFromHistory (e :: es)
      = (newBasicResource t2).loadFromHistory (e :: es) := by
  unfold BasicResource.loadFromHistory
  rw [List.foldl_cons, List.foldl_cons, applyEvent_fresh t1 t2 e]

/-- Claim C8, counterexample.  Replaying the empty event sequence on two
fresh aggregates constructed at Unix seconds 0 and 1 leaves their
construction-time `last_modified` (and hence their ETags) different, so
the observable states are not identical. -/
theorem c8_counterexample :
    ((newBasicResource 0).loadFromHistory []).observe
      ≠ ((newBasicResource 1).loadFromHistory []).observe := by
  decide

/-- Claim C8, amended.  Replay of any non-empty event sequence on two
independently constructed fresh aggregates is deterministic: the full
observable state coincides; for the empty sequence everything except the
construction-time `last_modified` and the ETag derived from it
coincides. -/
theorem c8_replay_determinism (t1 t2 : Int) :
    (∀ (e : DomainEvent) (es : List DomainEvent),
      ((newBasicResource t1).loadFromHistory (e :: es)).observe
        = ((newBasicResource t2).loadFromHistory (e :: es)).observe) ∧
    (∀ E : List DomainEvent,
      ((newBasicResource t1).loadFromHistory E).entity.id
        = ((newBasicResource t2).loadFromHistory E).entity.id ∧
      ((newBasicResource t1).loadFromHistory E).uri
        = ((newBasicResource t2).loadFromHistory E).uri ∧
      ((newBasicResource t1).loadFromHistory E).data
        = ((newBasicResource t2).loadFromHistory E).data ∧
      ((newBasicResource t1).loadFromHistory E).contentType
        = ((newBasicResource t2).loadFromHistory E).contentType ∧
      ((newBasicResource t1).loadFromHistory E).entity.version
        = ((newBasicResource t2).loadFromHistory E).entity.version ∧
      ((newBasicResource t1).loadFromHistory E).entity.sequenceNo
        = ((newBasicResource t2).loadFromHistory E).entity.sequenceNo) := by
  constructor
  · intro e es
    rw [loadFromHistory_fresh_cons t1 t2 e es]
  · intro E
    cases E with
    | nil => exact ⟨rfl, rfl, rfl, rfl, rfl, rfl⟩
    | cons e es =>
      rw [loadFromHistory_fresh_cons t1 t2 e es]
      exact ⟨rfl, rfl, rfl, rfl, rfl, rfl⟩

/-- Claim C10 witness at concrete inputs. -/
theorem c10_no_creation_precondition_witness :
    (∃ ver, ((newBasicResource 0).withURI "https://a.example/x" 1).entity.uncommitted
        = [.uriAssigned "" "https://a.example/x" 1 ver]) ∧
    ((newBasicResource 0).withURI "https://a.example/x" 1).errors = [] ∧
    (∃ ver, ((newBasicResource 0).update "y" "text/plain" 1).entity.uncommitted
        = [.updated "" "" "y" "text/plain" 1 ver]) ∧
    ((newBasicResource 0).update "y" "text/plain" 1).errors = [] ∧
    (∃ ver, ((newBasicResource 0).delete 1).entity.uncommitted
        = [.deleted "" "" 1 ver]) ∧
    ((newBasicResource 0).delete 1).errors = [] :=
  c10_no_creation_precondition 0 1 "https://a.example/x" "y" "text/plain"
    (by decide) (by decide)

end VinePod
